import Mathlib

/-!
Verification of the worker-parking coordinator in
`src/bastion-executor/src/sleepers.rs` (`Sleepers`), a shallow embedding of
its sequentialized semantics: each call to `wait` or `notify_one` runs
atomically (the Rust code serializes the interesting sections through the
`sleep` mutex, and the atomic flag is `SeqCst`).
-/

/-- State of the `Sleepers` primitive: `sleep` embeds the mutex-guarded
`usize` counter of sleeping threads (as an `Int`, letting non-negativity
be a theorem rather than a representation artifact), `notified` embeds the
`AtomicBool` sticky notification flag. The condition variable itself is
modelled by the block/wake events the operations report. -/
structure Sleepers where
  sleep : Int
  notified : Bool
deriving DecidableEq, Repr

/-- Embeds `Sleepers::default` / `Sleepers::new`: counter 0, flag false. -/
def Sleepers.new : Sleepers := { sleep := 0, notified := false }

/-- Embeds `Sleepers::wait`. Returns the post-state and whether the calling
thread blocked on the condition variable (`true` = it parked; `false` = it
returned immediately, consuming the pending notification). The
`swap(false, SeqCst)` writes `false` to `notified` unconditionally — both
branches carry `notified := false` — and branches on the previous value. -/
def Sleepers.wait (s : Sleepers) : Sleepers × Bool :=
  if s.notified then
    ({ s with notified := false }, false)
  else
    ({ s with notified := false, sleep := s.sleep + 1 }, true)

/-- Embeds `Sleepers::notify_one`. Returns the post-state and how many
threads the call signalled on the condition variable (the code calls
`Condvar::notify_one` exactly once on the delivering branch, so this is
0 or 1 by construction of the source). -/
def Sleepers.notify_one (s : Sleepers) : Sleepers × Nat :=
  if s.notified then
    (s, 0)
  else if 0 < s.sleep then
    ({ s with sleep := s.sleep - 1 }, 1)
  else
    ({ s with notified := true }, 0)

/-- Error value for a poisoned mutex, the only failure the Rust `unwrap`
calls in `wait` and `notify_one` can encounter. -/
inductive PoisonError
  | poisoned
deriving DecidableEq, Repr

/-- Models the `Mutex::lock().unwrap()` and `Condvar::wait(guard).unwrap()`
targets: both return the guarded value, or a poison error exactly when the
mutex is poisoned. -/
def lockAcquire {α : Type} (poisoned : Bool) (v : α) : Except PoisonError α :=
  if poisoned then Except.error PoisonError.poisoned else Except.ok v

/-- Embeds `Sleepers::wait` with its two fallible `unwrap` sites made
explicit: the initial `self.sleep.lock()` and the lock reacquisition inside
`self.wake.wait(sleep)`. -/
def Sleepers.waitChecked (poisoned : Bool) (s : Sleepers) :
    Except PoisonError (Sleepers × Bool) := do
  let g ← lockAcquire poisoned s.sleep
  if s.notified then
    pure ({ s with notified := false }, false)
  else do
    let g1 := g + 1
    let _ ← lockAcquire poisoned g1
    pure ({ s with notified := false, sleep := g1 }, true)

/-- Embeds `Sleepers::notify_one` with its fallible `unwrap` site
(`self.sleep.lock()`) made explicit; the fast path takes no lock. -/
def Sleepers.notifyChecked (poisoned : Bool) (s : Sleepers) :
    Except PoisonError (Sleepers × Nat) :=
  if s.notified then
    Except.ok (s, 0)
  else do
    let g ← lockAcquire poisoned s.sleep
    if 0 < g then
      pure ({ s with sleep := g - 1 }, 1)
    else
      pure ({ s with notified := true }, 0)

/-- The two operations a client can invoke on the primitive. -/
inductive Event
  | parkWait
  | notifyOne
deriving DecidableEq, Repr

/-- Trace-level state: the `Sleepers` core together with the number of
threads currently blocked inside `wait` on the condition variable. A
`parkWait` event that blocks adds one blocked thread; a `notifyOne` event
releases exactly the number of threads it signalled. -/
structure SysState where
  core : Sleepers
  blocked : Nat
deriving DecidableEq, Repr

/-- Initial trace state: a freshly constructed `Sleepers`, nobody blocked. -/
def SysState.init : SysState := { core := Sleepers.new, blocked := 0 }

/-- One event of the sequentialized execution. -/
def SysState.step (s : SysState) : Event → SysState
  | Event.parkWait =>
    let r := s.core.wait
    { core := r.1, blocked := s.blocked + (if r.2 then 1 else 0) }
  | Event.notifyOne =>
    let r := s.core.notify_one
    { core := r.1, blocked := s.blocked - r.2 }

/-- Run a list of events from a state. -/
def SysState.run (s : SysState) : List Event → SysState
  | [] => s
  | e :: es => (s.step e).run es

/-- States of the core reachable from a fresh `Sleepers` by any sequence of
`wait` and `notify_one` calls. -/
inductive Reachable : Sleepers → Prop
  | init : Reachable Sleepers.new
  | waitStep {s : Sleepers} : Reachable s → Reachable s.wait.1
  | notifyStep {s : Sleepers} : Reachable s → Reachable s.notify_one.1

/-- A `wait` call preserves non-negativity of the counter and leaves the
flag cleared, so the reachability invariant survives it. -/
lemma Sleepers.wait_inv {s : Sleepers} (h0 : 0 ≤ s.sleep) :
    0 ≤ s.wait.1.sleep ∧ (s.wait.1.notified = true → s.wait.1.sleep = 0) := by
  cases hn : s.notified <;> simp [Sleepers.wait, hn] <;> omega

/-- A `notify_one` call preserves the reachability invariant: the counter
stays non-negative, and the flag is only set on the branch where the
counter is zero. -/
lemma Sleepers.notify_inv {s : Sleepers} (h0 : 0 ≤ s.sleep)
    (h1 : s.notified = true → s.sleep = 0) :
    0 ≤ s.notify_one.1.sleep ∧
      (s.notify_one.1.notified = true → s.notify_one.1.sleep = 0) := by
  cases hn : s.notified
  · by_cases hs : 0 < s.sleep <;> simp [Sleepers.notify_one, hn, hs] <;> omega
  · have h2 := h1 hn
    simp [Sleepers.notify_one, hn, h2]

/-- Invariant of reachable core states: the counter is non-negative, and a
pending notification implies nobody is counted asleep. -/
lemma Reachable.inv {s : Sleepers} (h : Reachable s) :
    0 ≤ s.sleep ∧ (s.notified = true → s.sleep = 0) := by
  induction h with
  | init => simp [Sleepers.new]
  | waitStep _ ih => exact Sleepers.wait_inv ih.1
  | notifyStep _ ih => exact Sleepers.notify_inv ih.1 ih.2

/-- C1: in a state with no thread parked and no credit pending, one
`notify_one` followed by one `wait` makes that `wait` return immediately
without blocking, and the `wait` clears the pending-notification flag. -/
theorem C1_no_lost_wakeup (s : Sleepers) (h0 : s.sleep = 0)
    (h1 : s.notified = false) :
    s.notify_one.1.notified = true ∧
    s.notify_one.1.wait.2 = false ∧
    s.notify_one.1.wait.1.notified = false := by
  simp [Sleepers.notify_one, Sleepers.wait, h0, h1]

/-- Witness for C1 at the freshly constructed state. -/
theorem C1_no_lost_wakeup_witness :
    Sleepers.new.notify_one.1.notified = true ∧
    Sleepers.new.notify_one.1.wait.2 = false ∧
    Sleepers.new.notify_one.1.wait.1.notified = false :=
  C1_no_lost_wakeup Sleepers.new rfl rfl

/-- C2: on every reachable state, `notify_one` signals at most one thread,
and it either delivers a wake to exactly one parked thread (decrementing the
counter by one) or leaves the pending-notification flag set; it signals
exactly one thread whenever at least one thread is parked. -/
theorem C2_notify_delivers_or_credits (s : Sleepers) (h : Reachable s) :
    s.notify_one.2 ≤ 1 ∧
    ((s.notify_one.2 = 1 ∧ s.notify_one.1.sleep = s.sleep - 1 ∧
        s.notify_one.1.notified = false) ∨
      (s.notify_one.2 = 0 ∧ s.notify_one.1.notified = true ∧
        s.notify_one.1.sleep = s.sleep)) ∧
    (0 < s.sleep → s.notify_one.2 = 1) := by
  obtain ⟨h0, h1⟩ := h.inv
  cases hn : s.notified
  · by_cases hs : 0 < s.sleep <;> simp [Sleepers.notify_one, hn, hs]
  · have h2 := h1 hn
    simp [Sleepers.notify_one, hn, h2]

/-- Witness for C2 at the reachable state with one parked thread. -/
theorem C2_notify_delivers_or_credits_witness :
    Sleepers.new.wait.1.notify_one.2 ≤ 1 ∧
    ((Sleepers.new.wait.1.notify_one.2 = 1 ∧
        Sleepers.new.wait.1.notify_one.1.sleep = Sleepers.new.wait.1.sleep - 1 ∧
        Sleepers.new.wait.1.notify_one.1.notified = false) ∨
      (Sleepers.new.wait.1.notify_one.2 = 0 ∧
        Sleepers.new.wait.1.notify_one.1.notified = true ∧
        Sleepers.new.wait.1.notify_one.1.sleep = Sleepers.new.wait.1.sleep)) ∧
    (0 < Sleepers.new.wait.1.sleep → Sleepers.new.wait.1.notify_one.2 = 1) :=
  C2_notify_delivers_or_credits Sleepers.new.wait.1
    (Reachable.waitStep Reachable.init)

/-- C3: in a state with a positive parked count and no pending credit,
`notify_one` decrements the counter by one, signals exactly one thread,
leaves the flag false, and a subsequent `wait` blocks rather than finding a
leftover credit. -/
theorem C3_notify_wakes_parked (s : Sleepers) (h0 : 0 < s.sleep)
    (h1 : s.notified = false) :
    s.notify_one.1.sleep = s.sleep - 1 ∧
    s.notify_one.2 = 1 ∧
    s.notify_one.1.notified = false ∧
    s.notify_one.1.wait.2 = true := by
  simp [Sleepers.notify_one, Sleepers.wait, h0, h1]

/-- Witness for C3 at a state with one parked thread and no credit. -/
theorem C3_notify_wakes_parked_witness :
    (Sleepers.mk 1 false).notify_one.1.sleep = (Sleepers.mk 1 false).sleep - 1 ∧
    (Sleepers.mk 1 false).notify_one.2 = 1 ∧
    (Sleepers.mk 1 false).notify_one.1.notified = false ∧
    (Sleepers.mk 1 false).notify_one.1.wait.2 = true :=
  C3_notify_wakes_parked (Sleepers.mk 1 false) (by decide) rfl

/-- C4: `notify_one` is a no-op on any state whose credit is already
pending, and from any state with parked count zero, two `notify_one` calls
leave exactly one credit (the second call is a no-op), so one subsequent
`wait` returns immediately and a second `wait` right after blocks. -/
theorem C4_credit_non_accumulation (s : Sleepers) :
    (s.notified = true → s.notify_one = (s, 0)) ∧
    (s.sleep = 0 →
      s.notify_one.1.notify_one = (s.notify_one.1, 0) ∧
      s.notify_one.1.notified = true ∧
      s.notify_one.1.wait.2 = false ∧
      s.notify_one.1.wait.1.wait.2 = true) := by
  constructor
  · intro hn
    simp [Sleepers.notify_one, hn]
  · intro h0
    cases hn : s.notified <;>
      simp [Sleepers.notify_one, Sleepers.wait, hn, h0]

/-- Witness for C4 at a credit-pending state and at the empty state. -/
theorem C4_credit_non_accumulation_witness :
    (Sleepers.mk 3 true).notify_one = (Sleepers.mk 3 true, 0) ∧
    ((Sleepers.mk 0 false).notify_one.1.notify_one =
        ((Sleepers.mk 0 false).notify_one.1, 0) ∧
      (Sleepers.mk 0 false).notify_one.1.notified = true ∧
      (Sleepers.mk 0 false).notify_one.1.wait.2 = false ∧
      (Sleepers.mk 0 false).notify_one.1.wait.1.wait.2 = true) :=
  ⟨(C4_credit_non_accumulation (Sleepers.mk 3 true)).1 rfl,
    (C4_credit_non_accumulation (Sleepers.mk 0 false)).2 rfl⟩

/-- C5: in a state with no pending credit, `wait` increments the parked
count by one and blocks on the condition variable; it does not return
immediately on this branch. -/
theorem C5_wait_blocks_without_credit (s : Sleepers) (h : s.notified = false) :
    s.wait.1.sleep = s.sleep + 1 ∧ s.wait.2 = true ∧
    s.wait.1.notified = false := by
  simp [Sleepers.wait, h]

/-- Witness for C5 at the freshly constructed state. -/
theorem C5_wait_blocks_without_credit_witness :
    Sleepers.new.wait.1.sleep = Sleepers.new.sleep + 1 ∧
    Sleepers.new.wait.2 = true ∧
    Sleepers.new.wait.1.notified = false :=
  C5_wait_blocks_without_credit Sleepers.new rfl

/-- One event preserves the equality between the mutex-guarded counter and
the number of threads blocked on the condition variable. -/
lemma SysState.step_inv {s : SysState} (h : s.core.sleep = (s.blocked : Int))
    (e : Event) : (s.step e).core.sleep = ((s.step e).blocked : Int) := by
  cases e
  · cases hn : s.core.notified <;>
      simp [SysState.step, Sleepers.wait, hn] <;> omega
  · cases hn : s.core.notified
    · by_cases hs : 0 < s.core.sleep <;>
        simp [SysState.step, Sleepers.notify_one, hn, hs] <;> omega
    · simpa [SysState.step, Sleepers.notify_one, hn] using h

/-- Running any event list preserves the counter/blocked equality. -/
lemma SysState.run_inv {s : SysState} (h : s.core.sleep = (s.blocked : Int)) :
    ∀ es : List Event, (s.run es).core.sleep = ((s.run es).blocked : Int) := by
  intro es
  induction es generalizing s with
  | nil => simpa [SysState.run] using h
  | cons e es ih => simpa [SysState.run] using ih (SysState.step_inv h e)

/-- C6: along every sequence of `wait` and `notify_one` events from the
freshly constructed state, the parked counter equals the number of threads
currently blocked inside `wait`, and in particular never goes negative. -/
theorem C6_parked_count_correct (es : List Event) :
    (SysState.init.run es).core.sleep = ((SysState.init.run es).blocked : Int) ∧
    0 ≤ (SysState.init.run es).core.sleep := by
  have h0 : SysState.init.core.sleep = (SysState.init.blocked : Int) := by
    simp [SysState.init, Sleepers.new]
  have h := SysState.run_inv h0 es
  exact ⟨h, by omega⟩

/-- C7: `wait` always leaves the flag false (it clears, never sets), and
`notify_one` never clears a set flag (it sets, never clears): the two
directions of change each belong to exactly one operation. -/
theorem C7_single_writer_per_direction (s : Sleepers) :
    s.wait.1.notified = false ∧
    (s.notified = true → s.notify_one.1.notified = true) := by
  constructor
  · cases hn : s.notified <;> simp [Sleepers.wait, hn]
  · intro hn
    simp [Sleepers.notify_one, hn]

/-- Witness for C7 at a credit-pending state. -/
theorem C7_single_writer_per_direction_witness :
    (Sleepers.mk 0 true).wait.1.notified = false ∧
    (Sleepers.mk 0 true).notify_one.1.notified = true :=
  ⟨(C7_single_writer_per_direction (Sleepers.mk 0 true)).1,
    (C7_single_writer_per_direction (Sleepers.mk 0 true)).2 rfl⟩

/-- C8: with the mutex not poisoned, the fallible embeddings of `wait` and
`notify_one` (unwrap sites explicit) always succeed and agree with the
total embeddings: no error return, no reachable failure branch. -/
theorem C8_total_without_poisoning (s : Sleepers) :
    s.waitChecked false = Except.ok s.wait ∧
    s.notifyChecked false = Except.ok s.notify_one := by
  constructor
  · cases hn : s.notified <;>
      simp [Sleepers.waitChecked, Sleepers.wait, lockAcquire, hn,
        Bind.bind, Except.bind, pure, Except.pure]
  · cases hn : s.notified
    · by_cases hs : 0 < s.sleep <;>
        simp [Sleepers.notifyChecked, Sleepers.notify_one, lockAcquire, hn,
          hs, Bind.bind, Except.bind, pure, Except.pure]
    · simp [Sleepers.notifyChecked, Sleepers.notify_one, hn]

/-- C9: from a state with parked count zero, `notify_one` leaves the
counter unchanged on both of its possible branches. -/
theorem C9_notify_preserves_counter_when_empty (s : Sleepers)
    (h0 : s.sleep = 0) : s.notify_one.1.sleep = s.sleep := by
  cases hn : s.notified <;> simp [Sleepers.notify_one, hn, h0]

/-- Witness for C9 at the freshly constructed state. -/
theorem C9_notify_preserves_counter_when_empty_witness :
    Sleepers.new.notify_one.1.sleep = Sleepers.new.sleep :=
  C9_notify_preserves_counter_when_empty Sleepers.new rfl

/-- C10: at every point where a `wait` call returns in the sequentialized
semantics, the pending-notification flag is false: `wait` itself always
leaves the flag cleared (it swaps in false and never sets it), and a
`notify_one` that releases a blocked `wait` also leaves it false. -/
theorem C10_wait_returns_with_flag_clear (s : Sleepers) :
    s.wait.1.notified = false ∧
    (s.notify_one.2 = 1 → s.notify_one.1.notified = false) := by
  constructor
  · cases hn : s.notified <;> simp [Sleepers.wait, hn]
  · cases hn : s.notified
    · by_cases hs : 0 < s.sleep <;> simp [Sleepers.notify_one, hn, hs]
    · simp [Sleepers.notify_one, hn]

/-- Witness for C10 at a state with one parked thread and no credit. -/
theorem C10_wait_returns_with_flag_clear_witness :
    (Sleepers.mk 1 false).wait.1.notified = false ∧
    (Sleepers.mk 1 false).notify_one.1.notified = false :=
  ⟨(C10_wait_returns_with_flag_clear (Sleepers.mk 1 false)).1,
    (C10_wait_returns_with_flag_clear (Sleepers.mk 1 false)).2 (by decide)⟩
